import Mathlib

/-!
Verification of the JSON-RPC 2.0 time server and its browser client.

The development shallowly embeds the JavaScript sources:
* the client library (`createRPCRequest`, `validateRPCResponse`, `callRPC`,
  `callRPCWithRetry`, `addToHistory`, `clearHistory`) and
* the Express server pipeline (`routeMethod`, `app.post('/rpc')`).

JavaScript values that can appear in a parsed JSON body are modelled by the
inductive type `JsonVal`; JavaScript truthiness, `typeof x === 'object'`,
property access and the `in` operator are modelled explicitly.
-/

namespace JsonRpc

mutual
/-- A JSON value, as produced by `JSON.parse` / `express.json()`.
`jnull` doubles as the JavaScript `null` literal. Field absence
(JavaScript `undefined`) is modelled by `Option JsonVal` at use sites. -/
inductive JsonVal where
  | jnull : JsonVal
  | jbool : Bool → JsonVal
  | jnum : Int → JsonVal
  | jstr : String → JsonVal
  | jarr : JsonArr → JsonVal
  | jobj : JsonObj → JsonVal
  deriving DecidableEq

/-- The element list of a JSON array. -/
inductive JsonArr where
  | nil : JsonArr
  | cons : JsonVal → JsonArr → JsonArr
  deriving DecidableEq

/-- The key/value bindings of a JSON object, in insertion order. -/
inductive JsonObj where
  | nil : JsonObj
  | cons : String → JsonVal → JsonObj → JsonObj
  deriving DecidableEq
end

/-- Build the binding list of a JSON object from a Lean list literal. -/
def JsonObj.ofList : List (String × JsonVal) → JsonObj
  | [] => .nil
  | (k, v) :: tl => .cons k v (JsonObj.ofList tl)

/-- Build the element list of a JSON array from a Lean list literal. -/
def JsonArr.ofList : List JsonVal → JsonArr
  | [] => .nil
  | v :: tl => .cons v (JsonArr.ofList tl)

/-- A JSON object literal `{ k1: v1, ... }`. -/
def JsonVal.mkObj (fs : List (String × JsonVal)) : JsonVal :=
  .jobj (JsonObj.ofList fs)

/-- A JSON array literal `[v1, ...]`. -/
def JsonVal.mkArr (xs : List JsonVal) : JsonVal :=
  .jarr (JsonArr.ofList xs)

/-- Lookup of the first binding of a key, i.e. JavaScript property
access on a parsed JSON object (parsed objects have unique keys). -/
def JsonObj.find? : JsonObj → String → Option JsonVal
  | .nil, _ => none
  | .cons k v tl, key => if k == key then some v else tl.find? key

namespace JsonVal

/-- JavaScript truthiness of a JSON value: `null`, `false`, `0` and `""`
are falsy; every object and array is truthy. -/
def truthy : JsonVal → Bool
  | jnull => false
  | jbool b => b
  | jnum n => n != 0
  | jstr s => s != ""
  | jarr _ => true
  | jobj _ => true

/-- `typeof v === 'object'`: true for objects, arrays and `null`. -/
def typeofObject : JsonVal → Bool
  | jnull => true
  | jarr _ => true
  | jobj _ => true
  | _ => false

/-- `typeof v === 'string'`. -/
def isStr : JsonVal → Bool
  | jstr _ => true
  | _ => false

/-- `Array.isArray(v)`. -/
def isArr : JsonVal → Bool
  | jarr _ => true
  | _ => false

/-- Property access `v.k`: `none` models JavaScript `undefined`.
On an object the first binding of the key wins (parsed JSON objects
have unique keys); on every other value the access yields `undefined`
(numeric array indices are never used by the embedded code). -/
def getField : JsonVal → String → Option JsonVal
  | jobj fs, k => fs.find? k
  | _, _ => none

/-- The `in` operator restricted to the shapes the code applies it to:
`'k' in v` for an object checks key membership; the embedded code only
uses it on values that passed an object check. -/
def hasField (v : JsonVal) (k : String) : Bool :=
  (v.getField k).isSome

/-- Truthiness of a possibly-undefined value (`undefined` is falsy). -/
def optTruthy : Option JsonVal → Bool
  | none => false
  | some v => v.truthy

/-- Strict equality `v === s` of a possibly-undefined value with a string
literal: true exactly when `v` is that string. -/
def strictEqStr : Option JsonVal → String → Bool
  | some (jstr t), s => t == s
  | _, _ => false

end JsonVal

open JsonVal

/-!
## Client: `createRPCRequest` (script `createRPCRequest`, lines 59–66)

```js
function createRPCRequest(method, params = {}, id = null) {
    return { jsonrpc: '2.0', method: method, params: params, id: id || Date.now() };
}
```

`Date.now()` is modelled by the explicit clock argument `nowMs`
(milliseconds since the epoch at the moment of the call). An omitted
`id` argument is the default `null`, i.e. `JsonVal.jnull`.
-/

def createRPCRequest (method : JsonVal) (params : JsonVal) (id : JsonVal)
    (nowMs : Int) : JsonVal :=
  .mkObj [("jsonrpc", .jstr "2.0"), ("method", method), ("params", params),
         ("id", if id.truthy then id else .jnum nowMs)]

/-!
## Client: `validateRPCResponse` (script lines 75–95)

```js
function validateRPCResponse(response) {
    if (!response || typeof response !== 'object') { throw ... 'not an object' }
    if (response.jsonrpc !== '2.0') { throw ... 'jsonrpc version must be "2.0"' }
    if (!('result' in response) && !('error' in response)) { throw ... }
    if ('error' in response) {
        if (!response.error.code || !response.error.message) { throw ... }
    }
    return true;
}
```

A thrown error is modelled by `Except JsError`. The four validation
checks throw `Error`s; additionally, when the `error` member is the
JSON literal `null`, the member access `response.error.code` inside the
fourth check itself throws a `TypeError` (reading a property of `null`),
which propagates out of the function exactly like the validation errors.
On every other non-object `error` value the accesses merely yield
`undefined`, which is falsy.
-/

/-- A JavaScript `Error`-like value: its class name (`"Error"`,
`"AbortError"`, `"TypeError"`, …) and its message. -/
structure JsError where
  name : String
  message : String
  deriving DecidableEq

def validateRPCResponse (response : JsonVal) : Except JsError Bool :=
  if !response.truthy || !response.typeofObject then
    .error ⟨"Error", "Invalid response: not an object"⟩
  else if !strictEqStr (response.getField "jsonrpc") "2.0" then
    .error ⟨"Error", "Invalid response: jsonrpc version must be \"2.0\""⟩
  else if !response.hasField "result" && !response.hasField "error" then
    .error ⟨"Error", "Invalid response: must contain either result or error"⟩
  else if response.getField "error" == some .jnull then
    .error ⟨"TypeError", "Cannot read properties of null (reading 'code')"⟩
  else if response.hasField "error" &&
      (!optTruthy ((response.getField "error").bind (·.getField "code")) ||
       !optTruthy ((response.getField "error").bind (·.getField "message"))) then
    .error ⟨"Error", "Invalid error response: must contain code and message"⟩
  else
    .ok true

/-- The acceptance predicate the specification states for the validator
(spec section 8 / claim C1): `r` is a structured object, its version is
"2.0", exactly one of `result`/`error` is present, and when `error` is
present its object has a code and a non-empty message. -/
def specValidatorAccepts (r : JsonVal) : Bool :=
  r.truthy && r.typeofObject &&
  strictEqStr (r.getField "jsonrpc") "2.0" &&
  (r.hasField "result" != r.hasField "error") &&
  (!r.hasField "error" ||
    (((r.getField "error").bind (·.getField "code")).isSome &&
     optTruthy ((r.getField "error").bind (·.getField "message"))))

/-- What the code actually accepts: at least one of `result`/`error`
(both present is allowed), and when `error` is present both `error.code`
and `error.message` must be truthy (so a code of `0` or an empty message
is rejected). -/
def codeValidatorAccepts (r : JsonVal) : Bool :=
  r.truthy && r.typeofObject &&
  strictEqStr (r.getField "jsonrpc") "2.0" &&
  (r.hasField "result" || r.hasField "error") &&
  (!r.hasField "error" ||
    (optTruthy ((r.getField "error").bind (·.getField "code")) &&
     optTruthy ((r.getField "error").bind (·.getField "message"))))

/-!
## Server: response constructors (server.js lines 37–68)
-/

/-- `createResponse(result, id)` (server.js lines 37–43). -/
def createResponse (result : JsonVal) (id : JsonVal) : JsonVal :=
  .mkObj [("jsonrpc", .jstr "2.0"), ("result", result), ("id", id)]

/-- `createErrorResponse(code, message, data, id)` (server.js lines 53–68):
the `data` member is attached only when `data !== null`. -/
def createErrorResponse (code : Int) (message : String) (data : Option JsonVal)
    (id : JsonVal) : JsonVal :=
  .mkObj [("jsonrpc", .jstr "2.0"),
         ("error", .mkObj ([("code", .jnum code), ("message", .jstr message)] ++
           (match data with
            | some d => [("data", d)]
            | none => []))),
         ("id", id)]

/-- The ambient server environment read by the three handlers: the clock
and the host timezone, frozen at the moment the handler runs. -/
structure ServerEnv where
  isoNow : String
  tzName : String
  tzOffset : String
  epochSec : Int

/-- `getCurrentTime()` (server.js lines 75–79). -/
def getCurrentTime (env : ServerEnv) : JsonVal :=
  .mkObj [("timestamp", .jstr env.isoNow)]

/-- `getTimeZone()` (server.js lines 86–101); the Intl/offset computation
is the environment's `tzName`/`tzOffset`. -/
def getTimeZone (env : ServerEnv) : JsonVal :=
  .mkObj [("timezone", .jstr env.tzName), ("offset", .jstr env.tzOffset)]

/-- `getUnixTimestamp()` (server.js lines 108–112). -/
def getUnixTimestamp (env : ServerEnv) : JsonVal :=
  .mkObj [("timestamp", .jnum env.epochSec)]

/-- A thrown method error `{ code, message, data }` (server.js throws plain
objects from `routeMethod`). -/
structure MethodError where
  code : Int
  message : String
  data : Option JsonVal
  deriving DecidableEq

/-- `routeMethod(method, params)` (server.js lines 121–149): rejects a
non-string method with `-32600`, dispatches the three registered methods,
and throws `-32601` with the unknown name in `data` otherwise. The thrown
object is the `Except.error` payload. -/
def routeMethod (env : ServerEnv) (method : JsonVal) (_params : JsonVal) :
    Except MethodError JsonVal :=
  match method with
  | .jstr m =>
    if m == "getCurrentTime" then .ok (getCurrentTime env)
    else if m == "getTimeZone" then .ok (getTimeZone env)
    else if m == "getUnixTimestamp" then .ok (getUnixTimestamp env)
    else .error ⟨-32601, "Method not found", some (.jstr ("Unknown method: " ++ m))⟩
  | _ => .error ⟨-32600, "Invalid Request", some (.jstr "Method must be a string")⟩

/-- An HTTP reply as produced by the Express handler: the status code and
the JSON body, `none` for an empty body (`res.status(204).send()`). -/
structure HttpReply where
  status : Nat
  body : Option JsonVal
  deriving DecidableEq

/-- The POST `/rpc` pipeline (server.js lines 192–253) on an
already-parsed JSON body:
1. reject a falsy/non-object/array body with 400 `-32600`;
2. destructure `jsonrpc`, `method`, `params` (defaulting to an empty
   object), `id`; reject `jsonrpc !== '2.0'` and a missing `method`
   with 400 `-32600`, echoing `id` (`null` when absent — the default
   parameter of `createErrorResponse` fires on `undefined`);
3. classify `id === undefined` as a notification, call `routeMethod`,
   and reply 200 with a result or error response for a call, 204 with
   no body for a notification. -/
def handlePost (env : ServerEnv) (body : JsonVal) : HttpReply :=
  if !body.truthy || !body.typeofObject || body.isArr then
    ⟨400, some (createErrorResponse (-32600) "Invalid Request"
      (some (.jstr "Request must be a JSON object")) .jnull)⟩
  else
    let jsonrpc := body.getField "jsonrpc"
    let method := body.getField "method"
    let params := (body.getField "params").getD (.mkObj [])
    let id := body.getField "id"
    let idEcho := id.getD .jnull
    if !strictEqStr jsonrpc "2.0" then
      ⟨400, some (createErrorResponse (-32600) "Invalid Request"
        (some (.jstr "jsonrpc must be \"2.0\"")) idEcho)⟩
    else if method.isNone then
      ⟨400, some (createErrorResponse (-32600) "Invalid Request"
        (some (.jstr "method is required")) idEcho)⟩
    else
      let isNotification := id.isNone
      match routeMethod env (method.getD .jnull) params with
      | .ok result =>
        if !isNotification then ⟨200, some (createResponse result idEcho)⟩
        else ⟨204, none⟩
      | .error e =>
        if !isNotification then
          ⟨200, some (createErrorResponse e.code e.message e.data idEcho)⟩
        else ⟨204, none⟩

/-!
## Client: state, history and the `callRPC` pipeline
(script lines 39–45, 105–189, 199–217, 393–410, 424–430)
-/

/-- One entry of `STATE.requestHistory` (script lines 394–400). -/
structure HistoryEntry where
  timestamp : String
  method : String
  request : JsonVal
  response : JsonVal
  success : Bool
  deriving DecidableEq

/-- The mutable client `STATE` (script lines 39–45). -/
structure ClientState where
  isLoading : Bool
  requestHistory : List HistoryEntry
  errorCount : Nat
  successCount : Nat
  totalRequests : Nat
  deriving DecidableEq

/-- The initial client state (script lines 39–45). -/
def initialState : ClientState :=
  ⟨false, [], 0, 0, 0⟩

/-- `addToHistory(method, request, response, success)` (script lines
393–410) acting on the history list: push the new entry, then `shift()`
the oldest one off when the length exceeds 50. The timestamp is the
caller's clock rendered as an ISO string. -/
def addToHistory (ts : String) (method : String) (request : JsonVal)
    (response : JsonVal) (success : Bool) (h : List HistoryEntry) :
    List HistoryEntry :=
  let h2 := h ++ [⟨ts, method, request, response, success⟩]
  if h2.length > 50 then h2.drop 1 else h2

/-- `clearHistory()` (script lines 424–430): empties the history and
resets the three counters; `isLoading` is untouched. -/
def clearHistory (st : ClientState) : ClientState :=
  { st with
    requestHistory := [],
    errorCount := 0,
    successCount := 0,
    totalRequests := 0 }

/-- The ambient clock visible to the client: `Date.now()` in
milliseconds and the same instant rendered by `toISOString()`. -/
structure ClientEnv where
  nowMs : Int
  isoNow : String

/-- What one `fetch` round trip does, as seen by `callRPC`: either the
promise rejects (network failure, or the abort controller fired on
timeout — then the error's name is `"AbortError"`), or a response
arrives with a status, a status text and the outcome of
`response.json()` (which itself may throw on a non-JSON body). -/
inductive FetchOutcome where
  | fetchThrows : JsError → FetchOutcome
  | httpResponse : Nat → String → Except JsError JsonVal → FetchOutcome

/-- How a `callRPC` invocation settles: the promise resolves with a value
(`none` models resolving with `undefined`, as the in-flight guard does)
or rejects with a thrown error. -/
inductive CallResult where
  | returned : Option JsonVal → CallResult
  | thrown : JsError → CallResult
  deriving DecidableEq

/-- The entry of `callRPC` (script lines 107–116): the in-flight guard
returns `undefined` at once when `STATE.isLoading` is set; otherwise the
flag is raised and `totalRequests` incremented before any work starts. -/
def callBegin (st : ClientState) : Option ClientState :=
  if st.isLoading then none
  else some { st with isLoading := true, totalRequests := st.totalRequests + 1 }

/-- The `catch` block of `callRPC` (script lines 170–182): bump the error
counter, record a failed history entry whose request is `null` and whose
response wraps the error message, and re-throw. -/
def catchBlock (env : ClientEnv) (methodName : String) (e : JsError)
    (st : ClientState) : ClientState :=
  { st with
    errorCount := st.errorCount + 1,
    requestHistory := addToHistory env.isoNow methodName .jnull
      (.mkObj [("error", .jstr e.message)]) false st.requestHistory }

/-- The `try` body of `callRPC` (script lines 118–182), after the guard
has been passed: build the request, run the fetch outcome through the
`response.ok` check, JSON parsing, `validateRPCResponse`, and the
`data.error` branch; every thrown error goes through `catchBlock` and is
re-thrown. A response whose body carries `error` is *returned*, not
thrown (script lines 153–156, 168). -/
def callBody (env : ClientEnv) (methodName : String) (params : JsonVal)
    (outcome : FetchOutcome) (st : ClientState) : ClientState × CallResult :=
  let request := createRPCRequest (.jstr methodName) params .jnull env.nowMs
  match outcome with
  | .fetchThrows e => (catchBlock env methodName e st, .thrown e)
  | .httpResponse status statusText json =>
    if !(200 ≤ status && status < 300) then
      let e : JsError := ⟨"Error",
        "HTTP Error: " ++ toString status ++ " " ++ statusText⟩
      (catchBlock env methodName e st, .thrown e)
    else
      match json with
      | .error e => (catchBlock env methodName e st, .thrown e)
      | .ok data =>
        match validateRPCResponse data with
        | .error e => (catchBlock env methodName e st, .thrown e)
        | .ok _ =>
          if optTruthy (data.getField "error") then
            ({ st with errorCount := st.errorCount + 1 }, .returned (some data))
          else
            ({ st with
                successCount := st.successCount + 1,
                requestHistory := addToHistory env.isoNow methodName request
                  data true st.requestHistory },
             .returned (some data))

/-- The `finally` block of `callRPC` (script lines 183–188): the
in-flight flag is lowered exactly here. -/
def callFinish (st : ClientState) : ClientState :=
  { st with isLoading := false }

/-- `callRPC(methodName, params)` (script lines 105–189) for one fetch
outcome: guard, body, `finally`. -/
def callRPC (env : ClientEnv) (methodName : String) (params : JsonVal)
    (outcome : FetchOutcome) (st : ClientState) : ClientState × CallResult :=
  match callBegin st with
  | none => (st, .returned none)
  | some st1 =>
    let (st2, res) := callBody env methodName params outcome st1
    (callFinish st2, res)

/-- The `for` loop of `callRPCWithRetry` (script lines 202–214) together
with the final `throw` (line 216): `attempt` is the 1-based loop counter,
`remaining` the number of iterations left, `last` the `lastError`
variable (`none` models it still being `undefined`; reading `.message`
of `undefined` in the final template literal throws a `TypeError`). -/
def retryLoop (env : ClientEnv) (methodName : String) (params : JsonVal)
    (outcomes : Nat → FetchOutcome) (maxRetries : Nat) (st : ClientState)
    (attempt : Nat) (remaining : Nat) (last : Option JsError) :
    ClientState × CallResult :=
  match remaining with
  | 0 =>
    match last with
    | some e =>
      (st, .thrown ⟨"Error", "Failed after " ++ toString maxRetries ++
        " attempts: " ++ e.message⟩)
    | none =>
      (st, .thrown ⟨"TypeError",
        "Cannot read properties of undefined (reading 'message')"⟩)
  | r + 1 =>
    match callRPC env methodName params (outcomes attempt) st with
    | (st1, .returned v) => (st1, .returned v)
    | (st1, .thrown e) =>
      retryLoop env methodName params outcomes maxRetries st1 (attempt + 1) r
        (some e)

/-- `callRPCWithRetry(methodName, params, maxRetries)` (script lines
199–217). `outcomes i` is the fetch outcome the network would produce
for the `i`-th attempt (1-based). -/
def callRPCWithRetry (env : ClientEnv) (methodName : String)
    (params : JsonVal) (outcomes : Nat → FetchOutcome) (maxRetries : Nat)
    (st : ClientState) : ClientState × CallResult :=
  retryLoop env methodName params outcomes maxRetries st 1 maxRetries none

/-!
## Theorems

### C1: the response validator's acceptance condition
-/

/-- Whether `validateRPCResponse` accepts (returns instead of throwing). -/
def validatorAccepts (r : JsonVal) : Bool :=
  match validateRPCResponse r with
  | .ok _ => true
  | .error _ => false

/-- The rejection reasons of `validateRPCResponse`, in check order: the
four validation `Error`s and the `TypeError` raised by the member access
on an `error: null` member. -/
def validatorReasons : List String :=
  ["Invalid response: not an object",
   "Invalid response: jsonrpc version must be \"2.0\"",
   "Invalid response: must contain either result or error",
   "Cannot read properties of null (reading 'code')",
   "Invalid error response: must contain code and message"]

/-- A response carrying both `result` and a well-formed `error`: the code
accepts it, the spec's "exactly one of result/error" demands rejection. -/
def bothResultAndError : JsonVal :=
  .mkObj [("jsonrpc", .jstr "2.0"), ("result", .jnum 1),
          ("error", .mkObj [("code", .jnum (-32601)),
                            ("message", .jstr "Method not found")])]

/-- C1, counterexample: on a response containing both `result` and
`error` the validator accepts while the claimed acceptance condition
(exactly one of the two keys) rejects, so the claimed equivalence is
false. -/
theorem validator_claim_counterexample :
    ¬(validatorAccepts bothResultAndError
      = specValidatorAccepts bothResultAndError) := by decide

/-- C1, amended: `validateRPCResponse` accepts `r` iff `r` is a truthy
value of object type, `r.jsonrpc === "2.0"`, at least one of
`result`/`error` is present (both at once is accepted), and, when
`error` is present, `error.code` and `error.message` are both truthy
(a code of `0` or an empty message is rejected). Moreover every
rejection carries one of five pairwise-distinct reason strings (the
four validation messages plus the `TypeError` of the `error: null`
member access), so the failing check can be identified. -/
theorem validateRPCResponse_characterization :
    (∀ r, validatorAccepts r = codeValidatorAccepts r) ∧
    validatorReasons.Nodup ∧
    (∀ r e, validateRPCResponse r = .error e → e.message ∈ validatorReasons)
    := by
  refine ⟨?_, by decide, ?_⟩
  · intro r
    have hf1 : (r.getField "error" == some JsonVal.jnull) = true →
        r.hasField "error" = true := by
      intro hx
      simp [JsonVal.hasField, eq_of_beq hx]
    have hf2 : (r.getField "error" == some JsonVal.jnull) = true →
        optTruthy ((r.getField "error").bind (·.getField "code")) = false := by
      intro hx
      rw [eq_of_beq hx]
      simp [JsonVal.getField, JsonVal.optTruthy]
    unfold validatorAccepts validateRPCResponse codeValidatorAccepts
    cases ht : r.truthy <;> cases ho : r.typeofObject <;>
      cases hv : strictEqStr (r.getField "jsonrpc") "2.0" <;>
      cases hr : r.hasField "result" <;> cases he : r.hasField "error" <;>
      cases hn : r.getField "error" == some JsonVal.jnull <;>
      cases hc : optTruthy ((r.getField "error").bind (·.getField "code")) <;>
      cases hm : optTruthy ((r.getField "error").bind (·.getField "message")) <;>
      simp_all
  · intro r e h
    unfold validateRPCResponse at h
    repeat' split at h
    all_goals cases h
    all_goals simp [validatorReasons]

/-- C1, witness: the amended characterization applied to `null` (rejected
as "not an object") and to a well-formed result response (accepted). -/
theorem validateRPCResponse_characterization_witness :
    ("Invalid response: not an object" ∈ validatorReasons) ∧
    validatorAccepts (.mkObj [("jsonrpc", .jstr "2.0"), ("result", .jnum 7)])
      = codeValidatorAccepts (.mkObj [("jsonrpc", .jstr "2.0"), ("result", .jnum 7)]) :=
  ⟨validateRPCResponse_characterization.2.2 .jnull
      ⟨"Error", "Invalid response: not an object"⟩ rfl,
   validateRPCResponse_characterization.1 _⟩

/-!
### C4: the request builder's id
-/

/-- C4, counterexample: the builder computes `id: id || Date.now()`, so
the explicitly supplied id `0` is replaced by the clock value, and two
builds whose `Date.now()` falls in the same millisecond — exactly the
"immediate succession" situation — get the *same* id. -/
theorem createRPCRequest_claim_counterexample :
    ((createRPCRequest (.jstr "getCurrentTime") (.mkObj []) (.jnum 0)
        1700000000000).getField "id" ≠ some (.jnum 0)) ∧
    ((createRPCRequest (.jstr "getCurrentTime") (.mkObj []) .jnull
        1700000000000).getField "id"
      = (createRPCRequest (.jstr "getTimeZone") (.mkObj []) .jnull
        1700000000000).getField "id") := by decide

/-- The `id` member of a built request reads back the fourth binding. -/
theorem getField_id_of_request (m p v : JsonVal) :
    (JsonVal.mkObj [("jsonrpc", .jstr "2.0"), ("method", m), ("params", p),
      ("id", v)]).getField "id" = some v := by
  simp [JsonVal.mkObj, JsonObj.ofList, JsonVal.getField, JsonObj.find?]

/-- C4, amended: `build(method, params, id).id == id` holds exactly for
*truthy* supplied ids — a falsy id (`0`, `""`, `null`, omitted) is
replaced by `Date.now()` — and two builds with omitted id get distinct
ids exactly when their `Date.now()` readings differ; within the same
millisecond the ids collide. -/
theorem createRPCRequest_id_behavior (method params id : JsonVal)
    (nowMs now2 : Int) :
    (id.truthy = true →
      (createRPCRequest method params id nowMs).getField "id" = some id) ∧
    (id.truthy = false →
      (createRPCRequest method params id nowMs).getField "id"
        = some (.jnum nowMs)) ∧
    (nowMs ≠ now2 →
      (createRPCRequest method params .jnull nowMs).getField "id"
        ≠ (createRPCRequest method params .jnull now2).getField "id") := by
  refine ⟨fun h => ?_, fun h => ?_, fun h => ?_⟩
  · unfold createRPCRequest
    rw [getField_id_of_request]
    simp [h]
  · unfold createRPCRequest
    rw [getField_id_of_request]
    simp [h]
  · unfold createRPCRequest
    rw [getField_id_of_request, getField_id_of_request]
    simp [JsonVal.truthy, h]

/-- C4, witness: a truthy id `7` survives; an omitted id becomes the
clock value; clock readings 5 and 6 give distinct ids. -/
theorem createRPCRequest_id_behavior_witness :
    ((createRPCRequest (.jstr "getCurrentTime") (.mkObj []) (.jnum 7)
        5).getField "id" = some (.jnum 7)) ∧
    ((createRPCRequest (.jstr "getCurrentTime") (.mkObj []) .jnull
        5).getField "id" = some (.jnum 5)) ∧
    ((createRPCRequest (.jstr "getCurrentTime") (.mkObj []) .jnull
        5).getField "id"
      ≠ (createRPCRequest (.jstr "getCurrentTime") (.mkObj []) .jnull
        6).getField "id") :=
  ⟨(createRPCRequest_id_behavior (.jstr "getCurrentTime") (.mkObj [])
      (.jnum 7) 5 6).1 (by decide),
   (createRPCRequest_id_behavior (.jstr "getCurrentTime") (.mkObj [])
      .jnull 5 6).2.1 (by decide),
   (createRPCRequest_id_behavior (.jstr "getCurrentTime") (.mkObj [])
      .jnull 5 6).2.2 (by decide)⟩

/-!
### C2, C3, C6, C7: the server pipeline
-/

/-- A fixed demonstration environment for concrete server runs. -/
def envDemo : ServerEnv :=
  ⟨"2026-01-01T00:00:00.000Z", "UTC", "+00:00", 1767225600⟩

/-- C2: a notification — a request whose `id` key is structurally absent
— that passes the structural checks (object shape, version, method
present) yields HTTP 204 with no body, whatever `routeMethod` does:
both the success and the error arm of the dispatch return the no-content
reply when `isNotification` holds. -/
theorem notification_no_body (env : ServerEnv) (body : JsonVal)
    (ht : body.truthy = true) (hobj : body.typeofObject = true)
    (harr : body.isArr = false)
    (hv : strictEqStr (body.getField "jsonrpc") "2.0" = true)
    (hm : (body.getField "method").isSome = true)
    (hid : body.getField "id" = none) :
    handlePost env body = ⟨204, none⟩ := by
  obtain ⟨mv, hmv⟩ := Option.isSome_iff_exists.mp hm
  unfold handlePost
  simp only [ht, hobj, harr, hv, hmv, hid]
  cases routeMethod env ((some mv).getD .jnull)
      ((body.getField "params").getD (.mkObj [])) <;> simp

/-- C2, witness: a succeeding handler (`getCurrentTime`) and a failing
one (unknown method) both produce 204 and no body for a notification. -/
theorem notification_no_body_witness :
    handlePost envDemo (.mkObj [("jsonrpc", .jstr "2.0"),
        ("method", .jstr "getCurrentTime"), ("params", .mkObj [])])
      = ⟨204, none⟩ ∧
    handlePost envDemo (.mkObj [("jsonrpc", .jstr "2.0"),
        ("method", .jstr "doesNotExist")])
      = ⟨204, none⟩ :=
  ⟨notification_no_body envDemo _ (by decide) (by decide) (by decide)
      (by decide) (by decide) (by decide),
   notification_no_body envDemo _ (by decide) (by decide) (by decide)
      (by decide) (by decide) (by decide)⟩

/-- A call whose `method` is the number `42`. -/
def nonStringMethodCall : JsonVal :=
  .mkObj [("jsonrpc", .jstr "2.0"), ("method", .jnum 42),
          ("params", .mkObj []), ("id", .jnum 1)]

/-- C3, counterexample: the call with `method: 42` is *not* rejected
during structural validation at HTTP 400 — it reaches `routeMethod`,
whose thrown `-32600` is delivered as a normal error Response at
HTTP 200. -/
theorem nonstring_method_claim_counterexample :
    (handlePost envDemo nonStringMethodCall).status = 200 ∧
    (handlePost envDemo nonStringMethodCall).status ≠ 400 ∧
    (((handlePost envDemo nonStringMethodCall).body.bind
        (·.getField "error")).bind (·.getField "code"))
      = some (.jnum (-32600)) := by decide

/-- C3, amended: a call whose `method` is present but not a string
passes the structural checks (which only test `method === undefined`),
is rejected *inside dispatch* — `routeMethod` yields `-32600` "Invalid
Request" — and the resulting error Response is delivered at HTTP 200
like any handler-level error, echoing the request id. -/
theorem nonstring_method_rejected_in_dispatch (env : ServerEnv)
    (body mv idv : JsonVal)
    (ht : body.truthy = true) (hobj : body.typeofObject = true)
    (harr : body.isArr = false)
    (hv : strictEqStr (body.getField "jsonrpc") "2.0" = true)
    (hm : body.getField "method" = some mv) (hms : mv.isStr = false)
    (hid : body.getField "id" = some idv) :
    (∀ params, routeMethod env mv params
      = .error ⟨-32600, "Invalid Request",
          some (.jstr "Method must be a string")⟩) ∧
    handlePost env body
      = ⟨200, some (createErrorResponse (-32600) "Invalid Request"
          (some (.jstr "Method must be a string")) idv)⟩ := by
  have hroute : ∀ params, routeMethod env mv params
      = .error ⟨-32600, "Invalid Request",
          some (.jstr "Method must be a string")⟩ := by
    intro params
    cases mv <;> simp_all [routeMethod, JsonVal.isStr]
  refine ⟨hroute, ?_⟩
  unfold handlePost
  simp only [ht, hobj, harr, hv, hm, hid]
  simp [hroute]

/-- C3, witness: the amended statement applied to the concrete call with
`method: 42` and `id: 1`. -/
theorem nonstring_method_rejected_in_dispatch_witness :
    (∀ params, routeMethod envDemo (.jnum 42) params
      = .error ⟨-32600, "Invalid Request",
          some (.jstr "Method must be a string")⟩) ∧
    handlePost envDemo nonStringMethodCall
      = ⟨200, some (createErrorResponse (-32600) "Invalid Request"
          (some (.jstr "Method must be a string")) (.jnum 1))⟩ :=
  nonstring_method_rejected_in_dispatch envDemo nonStringMethodCall
    (.jnum 42) (.jnum 1) (by decide) (by decide) (by decide) (by decide)
    (by decide) (by decide) (by decide)

/-- C6: dispatching any method name with no registered handler yields
`-32601` "Method not found", and the `data` member contains the
requested name as a substring. -/
theorem dispatch_unknown_method (env : ServerEnv) (params : JsonVal)
    (m : String) (h1 : m ≠ "getCurrentTime") (h2 : m ≠ "getTimeZone")
    (h3 : m ≠ "getUnixTimestamp") :
    routeMethod env (.jstr m) params
      = .error ⟨-32601, "Method not found",
          some (.jstr ("Unknown method: " ++ m))⟩ ∧
    ∃ pre suf, "Unknown method: " ++ m = pre ++ m ++ suf := by
  refine ⟨?_, "Unknown method: ", "", by simp⟩
  simp [routeMethod, h1, h2, h3]

/-- C6, witness: the unregistered name `"doesNotExist"`. -/
theorem dispatch_unknown_method_witness :
    routeMethod envDemo (.jstr "doesNotExist") (.mkObj [])
      = .error ⟨-32601, "Method not found",
          some (.jstr ("Unknown method: " ++ "doesNotExist"))⟩ ∧
    ∃ pre suf, "Unknown method: " ++ "doesNotExist"
      = pre ++ "doesNotExist" ++ suf :=
  dispatch_unknown_method envDemo (.mkObj []) "doesNotExist"
    (by decide) (by decide) (by decide)

/-- C7: an array (batch) payload is rejected as a whole with a single
400 InvalidRequest error response whose id is `null`; the reply does not
depend on the elements, so none of them is processed. -/
theorem batch_payload_rejected (env : ServerEnv) (xs : JsonArr) :
    handlePost env (.jarr xs)
      = ⟨400, some (createErrorResponse (-32600) "Invalid Request"
          (some (.jstr "Request must be a JSON object")) .jnull)⟩ := by
  unfold handlePost
  simp [JsonVal.truthy, JsonVal.typeofObject, JsonVal.isArr]

/-!
### C5, C8, C9: the transport session and the retry coordinator
-/

/-- The settled result of one `callRPC` attempt. It depends only on the
fetch outcome, never on the client state (`callBody_facts`). -/
def attemptResult (env : ClientEnv) (m : String) (p : JsonVal)
    (o : FetchOutcome) : CallResult :=
  (callBody env m p o initialState).2

theorem callBody_facts (env : ClientEnv) (m : String) (p : JsonVal)
    (o : FetchOutcome) (st : ClientState) :
    (callBody env m p o st).1.totalRequests = st.totalRequests ∧
    (callBody env m p o st).1.isLoading = st.isLoading ∧
    (callBody env m p o st).2 = attemptResult env m p o := by
  unfold attemptResult callBody catchBlock
  cases o <;> (repeat' split) <;> simp_all

/-- A busy session refuses a second call at once: the state is untouched
and the call resolves with `undefined`. -/
theorem callRPC_busy (env : ClientEnv) (m : String) (p : JsonVal)
    (o : FetchOutcome) (st : ClientState) (h : st.isLoading = true) :
    callRPC env m p o st = (st, .returned none) := by
  unfold callRPC callBegin
  simp [h]

/-- An idle session runs the attempt: the result is the outcome's
settled result, the in-flight flag ends lowered, and exactly one request
is counted. -/
theorem callRPC_run (env : ClientEnv) (m : String) (p : JsonVal)
    (o : FetchOutcome) (st : ClientState) (h : st.isLoading = false) :
    (callRPC env m p o st).2 = attemptResult env m p o ∧
    (callRPC env m p o st).1.isLoading = false ∧
    (callRPC env m p o st).1.totalRequests = st.totalRequests + 1 := by
  unfold callRPC callBegin callFinish
  simp only [h, Bool.false_eq_true, if_false]
  have hb := callBody_facts env m p o
    { st with isLoading := true, totalRequests := st.totalRequests + 1 }
  exact ⟨hb.2.2, trivial, hb.1⟩

/-- When every attempt's outcome settles by throwing, the retry loop
consumes all remaining attempts and finally throws. -/
theorem retryLoop_all_thrown (env : ClientEnv) (m : String) (p : JsonVal)
    (outcomes : Nat → FetchOutcome) (maxR : Nat)
    (hall : ∀ i, ∃ e, attemptResult env m p (outcomes i) = .thrown e) :
    ∀ (r : Nat) (st : ClientState) (attempt : Nat) (last : Option JsError),
      st.isLoading = false →
      ((retryLoop env m p outcomes maxR st attempt r last).1.totalRequests
          = st.totalRequests + r) ∧
      ((retryLoop env m p outcomes maxR st attempt r last).1.isLoading
          = false) ∧
      (∃ e, (retryLoop env m p outcomes maxR st attempt r last).2
          = .thrown e) := by
  intro r
  induction r with
  | zero =>
    intro st attempt last h
    cases last <;> simp [retryLoop, h]
  | succ n ih =>
    intro st attempt last h
    obtain ⟨e, he⟩ := hall attempt
    have hrun := callRPC_run env m p (outcomes attempt) st h
    unfold retryLoop
    rcases hc : callRPC env m p (outcomes attempt) st with ⟨st1, res⟩
    rw [hc] at hrun
    have hres : res = .thrown e := by
      rw [← he]; exact hrun.1
    subst hres
    have hrec := ih st1 (attempt + 1) (some e) hrun.2.1
    refine ⟨?_, hrec.2.1, hrec.2.2⟩
    rw [hrec.1, hrun.2.2]
    omega

/-- C5, counterexample: the server's `MethodNotFound` reply for
`"doesNotExist"`, delivered as a valid HTTP 200 Response, does *not*
cause a retry: with `maxRetries = 3` and attempts remaining, the
coordinator performs exactly one attempt and resolves with the error
Response as its value. -/
theorem retry_claim_counterexample :
    ((callRPCWithRetry ⟨1700000000000, "2023-11-14T22:13:20.000Z"⟩
        "doesNotExist" (.mkObj [])
        (fun _ => .httpResponse 200 "OK" (.ok (createErrorResponse (-32601)
          "Method not found" (some (.jstr "Unknown method: doesNotExist"))
          (.jnum 1700000000000))))
        3 initialState).1.totalRequests = 1) ∧
    ((callRPCWithRetry ⟨1700000000000, "2023-11-14T22:13:20.000Z"⟩
        "doesNotExist" (.mkObj [])
        (fun _ => .httpResponse 200 "OK" (.ok (createErrorResponse (-32601)
          "Method not found" (some (.jstr "Unknown method: doesNotExist"))
          (.jnum 1700000000000))))
        3 initialState).2
      = .returned (some (createErrorResponse (-32601) "Method not found"
          (some (.jstr "Unknown method: doesNotExist"))
          (.jnum 1700000000000)))) := by decide

/-- C5, amended: the coordinator re-attempts indiscriminately on every
failure kind that `callRPC` *throws* (network/abort errors, non-2xx
delivery statuses, unparsable bodies, invalid responses), consuming all
attempts; but a protocol-level error Response delivered as a valid
HTTP 200 body — such as the server's deterministic `MethodNotFound` — is
*returned* by `callRPC`, so the coordinator stops after a single attempt
and never retries it. -/
theorem retry_behavior (env : ClientEnv) (m : String) (p : JsonVal)
    (outcomes : Nat → FetchOutcome) (maxR : Nat) (st : ClientState)
    (v : Option JsonVal) (h : st.isLoading = false) :
    ((∀ i, ∃ e, attemptResult env m p (outcomes i) = .thrown e) →
      (callRPCWithRetry env m p outcomes maxR st).1.totalRequests
          = st.totalRequests + maxR ∧
      ∃ e, (callRPCWithRetry env m p outcomes maxR st).2 = .thrown e) ∧
    (1 ≤ maxR → attemptResult env m p (outcomes 1) = .returned v →
      (callRPCWithRetry env m p outcomes maxR st).1.totalRequests
          = st.totalRequests + 1 ∧
      (callRPCWithRetry env m p outcomes maxR st).2 = .returned v) := by
  constructor
  · intro hall
    have := retryLoop_all_thrown env m p outcomes maxR hall maxR st 1 none h
    exact ⟨this.1, this.2.2⟩
  · intro hmax hret
    obtain ⟨r, hr⟩ : ∃ r, maxR = r + 1 := ⟨maxR - 1, by omega⟩
    subst hr
    unfold callRPCWithRetry retryLoop
    have hrun := callRPC_run env m p (outcomes 1) st h
    rcases hc : callRPC env m p (outcomes 1) st with ⟨st1, res⟩
    rw [hc] at hrun
    have hres : res = .returned v := by
      rw [← hret]; exact hrun.1
    subst hres
    exact ⟨hrun.2.2, rfl⟩

/-- C5, witness: three aborted fetches are retried to exhaustion
(3 requests issued), while the `MethodNotFound` Response at HTTP 200 is
answered in a single attempt. -/
theorem retry_behavior_witness :
    ((callRPCWithRetry ⟨0, "t"⟩ "getCurrentTime" (.mkObj [])
        (fun _ => .fetchThrows ⟨"AbortError", "signal is aborted"⟩)
        3 initialState).1.totalRequests = 0 + 3 ∧
      ∃ e, (callRPCWithRetry ⟨0, "t"⟩ "getCurrentTime" (.mkObj [])
        (fun _ => .fetchThrows ⟨"AbortError", "signal is aborted"⟩)
        3 initialState).2 = .thrown e) ∧
    ((callRPCWithRetry ⟨0, "t"⟩ "doesNotExist" (.mkObj [])
        (fun _ => .httpResponse 200 "OK" (.ok (createErrorResponse (-32601)
          "Method not found" none (.jnum 1))))
        3 initialState).1.totalRequests = 0 + 1 ∧
      (callRPCWithRetry ⟨0, "t"⟩ "doesNotExist" (.mkObj [])
        (fun _ => .httpResponse 200 "OK" (.ok (createErrorResponse (-32601)
          "Method not found" none (.jnum 1))))
        3 initialState).2
        = .returned (some (createErrorResponse (-32601) "Method not found"
            none (.jnum 1)))) :=
  ⟨(retry_behavior ⟨0, "t"⟩ "getCurrentTime" (.mkObj [])
      (fun _ => .fetchThrows ⟨"AbortError", "signal is aborted"⟩)
      3 initialState none rfl).1
      (fun _ => ⟨⟨"AbortError", "signal is aborted"⟩, rfl⟩),
   (retry_behavior ⟨0, "t"⟩ "doesNotExist" (.mkObj [])
      (fun _ => .httpResponse 200 "OK" (.ok (createErrorResponse (-32601)
        "Method not found" none (.jnum 1))))
      3 initialState
      (some (createErrorResponse (-32601) "Method not found" none (.jnum 1)))
      rfl).2 (by omega) (by decide)⟩

/-- Unrolling of the retry loop for one remaining attempt plus `r`. -/
theorem retryLoop_succ (env : ClientEnv) (m : String) (p : JsonVal)
    (outcomes : Nat → FetchOutcome) (maxR : Nat) (st : ClientState)
    (attempt r : Nat) (last : Option JsError) :
    retryLoop env m p outcomes maxR st attempt (r + 1) last
      = match callRPC env m p (outcomes attempt) st with
        | (st1, .returned v) => (st1, .returned v)
        | (st1, .thrown e) =>
          retryLoop env m p outcomes maxR st1 (attempt + 1) r (some e) := rfl

/-- Unrolling of the retry loop at exactly one remaining attempt. -/
theorem retryLoop_one (env : ClientEnv) (m : String) (p : JsonVal)
    (outcomes : Nat → FetchOutcome) (maxR : Nat) (st : ClientState)
    (attempt : Nat) (last : Option JsError) :
    retryLoop env m p outcomes maxR st attempt 1 last
      = match callRPC env m p (outcomes attempt) st with
        | (st1, .returned v) => (st1, .returned v)
        | (st1, .thrown e) =>
          retryLoop env m p outcomes maxR st1 (attempt + 1) 0 (some e) := rfl

/-- The exhausted retry loop throws the aggregate error built from the
attempt count and the last error's message. -/
theorem retryLoop_zero (env : ClientEnv) (m : String) (p : JsonVal)
    (outcomes : Nat → FetchOutcome) (maxR : Nat) (st : ClientState)
    (attempt : Nat) (e : JsError) :
    retryLoop env m p outcomes maxR st attempt 0 (some e)
      = (st, .thrown ⟨"Error", "Failed after " ++ toString maxR ++
          " attempts: " ++ e.message⟩) := rfl

/-- C8: when both attempts of a `maxRetries = 2` session throw, the
coordinator throws an aggregate error whose message reports the attempt
count 2 and embeds — verbatim, unchanged by the coordinator — the
message of the error classified on the final attempt; exactly two
requests were issued. -/
theorem retry_exhaustion_two (env : ClientEnv) (m : String) (p : JsonVal)
    (outcomes : Nat → FetchOutcome) (st : ClientState) (e1 e2 : JsError)
    (h : st.isLoading = false)
    (h1 : attemptResult env m p (outcomes 1) = .thrown e1)
    (h2 : attemptResult env m p (outcomes 2) = .thrown e2) :
    (callRPCWithRetry env m p outcomes 2 st).2
      = .thrown ⟨"Error", "Failed after 2 attempts: " ++ e2.message⟩ ∧
    (callRPCWithRetry env m p outcomes 2 st).1.totalRequests
      = st.totalRequests + 2 := by
  have hstep : callRPCWithRetry env m p outcomes 2 st
      = retryLoop env m p outcomes 2 st 1 (1 + 1) none := rfl
  rw [hstep, retryLoop_succ]
  have hrun1 := callRPC_run env m p (outcomes 1) st h
  rcases hc1 : callRPC env m p (outcomes 1) st with ⟨st1, res1⟩
  rw [hc1] at hrun1
  have hres1 : res1 = .thrown e1 := by rw [← h1]; exact hrun1.1
  subst hres1
  dsimp only
  rw [retryLoop_one]
  have hrun2 := callRPC_run env m p (outcomes 2) st1 hrun1.2.1
  rcases hc2 : callRPC env m p (outcomes 2) st1 with ⟨st2, res2⟩
  rw [hc2] at hrun2
  have hres2 : res2 = .thrown e2 := by rw [← h2]; exact hrun2.1
  subst hres2
  dsimp only
  rw [retryLoop_zero]
  refine ⟨rfl, ?_⟩
  show st2.totalRequests = st.totalRequests + 2
  rw [hrun2.2.2, hrun1.2.2]

/-- C8, witness: two fetches that throw `boom 1` and `boom 2`; the
aggregate reports 2 attempts and carries `boom 2`. -/
theorem retry_exhaustion_two_witness :
    (callRPCWithRetry ⟨0, "t"⟩ "getCurrentTime" (.mkObj [])
        (fun i => .fetchThrows ⟨"Error", "boom " ++ toString i⟩) 2
        initialState).2
      = .thrown ⟨"Error", "Failed after 2 attempts: " ++
          (JsError.mk "Error" ("boom " ++ toString 2)).message⟩ ∧
    (callRPCWithRetry ⟨0, "t"⟩ "getCurrentTime" (.mkObj [])
        (fun i => .fetchThrows ⟨"Error", "boom " ++ toString i⟩) 2
        initialState).1.totalRequests = initialState.totalRequests + 2 :=
  retry_exhaustion_two ⟨0, "t"⟩ "getCurrentTime" (.mkObj [])
    (fun i => .fetchThrows ⟨"Error", "boom " ++ toString i⟩) initialState
    ⟨"Error", "boom " ++ toString 1⟩ ⟨"Error", "boom " ++ toString 2⟩
    rfl rfl rfl

/-- C9: the single-in-flight discipline of a session. A call attempted
while the flag is set is refused at once — the state is untouched and
the call resolves with `undefined`, so nothing of it interleaves with
the outstanding call. An accepted call raises the flag at entry; the
body of a call never lowers it; the `finally` step lowers it, so a
completed call always leaves the flag cleared. -/
theorem single_call_in_flight (env : ClientEnv) (m : String) (p : JsonVal)
    (o : FetchOutcome) (st : ClientState) :
    (st.isLoading = true → callRPC env m p o st = (st, .returned none)) ∧
    (st.isLoading = false → callBegin st = some { st with
        isLoading := true, totalRequests := st.totalRequests + 1 }) ∧
    (∀ st', (callBody env m p o st').1.isLoading = st'.isLoading) ∧
    (st.isLoading = false → (callRPC env m p o st).1.isLoading = false) := by
  refine ⟨fun h => callRPC_busy env m p o st h, fun h => ?_,
    fun st' => (callBody_facts env m p o st').2.1,
    fun h => (callRPC_run env m p o st h).2.1⟩
  unfold callBegin
  simp [h]

/-- C9, witness: a busy session (`isLoading = true`) refuses the second
call with the state unchanged; an idle session raises the flag on entry
and has it cleared after completion. -/
theorem single_call_in_flight_witness :
    (callRPC ⟨0, "t"⟩ "getCurrentTime" (.mkObj [])
        (.fetchThrows ⟨"Error", "x"⟩) ⟨true, [], 0, 0, 0⟩
      = (⟨true, [], 0, 0, 0⟩, .returned none)) ∧
    (callBegin initialState = some { initialState with
        isLoading := true, totalRequests := initialState.totalRequests + 1 }) ∧
    ((callRPC ⟨0, "t"⟩ "getCurrentTime" (.mkObj [])
        (.fetchThrows ⟨"Error", "x"⟩) initialState).1.isLoading = false) :=
  ⟨(single_call_in_flight ⟨0, "t"⟩ "getCurrentTime" (.mkObj [])
      (.fetchThrows ⟨"Error", "x"⟩) ⟨true, [], 0, 0, 0⟩).1 rfl,
   (single_call_in_flight ⟨0, "t"⟩ "getCurrentTime" (.mkObj [])
      (.fetchThrows ⟨"Error", "x"⟩) initialState).2.1 rfl,
   (single_call_in_flight ⟨0, "t"⟩ "getCurrentTime" (.mkObj [])
      (.fetchThrows ⟨"Error", "x"⟩) initialState).2.2.2 rfl⟩

/-!
### C10: the 50-entry history bound
-/

/-- `addToHistory` keeps the history at 50 entries or fewer. -/
theorem addToHistory_le (ts m : String) (req resp : JsonVal) (s : Bool)
    (h : List HistoryEntry) (hlen : h.length ≤ 50) :
    (addToHistory ts m req resp s h).length ≤ 50 := by
  unfold addToHistory
  dsimp only
  split
  · simpa using hlen
  · rename_i hh
    simp at hh ⊢
    omega

/-- Every path of the call body keeps the history bound. -/
theorem callBody_history_le (env : ClientEnv) (m : String) (p : JsonVal)
    (o : FetchOutcome) (st : ClientState)
    (hlen : st.requestHistory.length ≤ 50) :
    (callBody env m p o st).1.requestHistory.length ≤ 50 := by
  unfold callBody catchBlock
  cases o <;> (repeat' split) <;> dsimp only <;>
    first
      | exact addToHistory_le _ _ _ _ _ _ hlen
      | exact hlen

/-- A whole `callRPC` run keeps the history bound. -/
theorem callRPC_history_le (env : ClientEnv) (m : String) (p : JsonVal)
    (o : FetchOutcome) (st : ClientState)
    (hlen : st.requestHistory.length ≤ 50) :
    (callRPC env m p o st).1.requestHistory.length ≤ 50 := by
  unfold callRPC callBegin callFinish
  by_cases h : st.isLoading = true
  · simp [h, hlen]
  · simp only [h, if_false]
    exact callBody_history_le env m p o _ hlen

/-- C10: the request history holds at most 50 entries after every
recording operation — when a 51st entry would be added, the oldest
(front) entry is discarded and the new one appended — and after every
`callRPC` run; `clearHistory` empties it. -/
theorem history_bounded (ts m : String) (req resp : JsonVal) (s : Bool)
    (h : List HistoryEntry) (env : ClientEnv) (mm : String) (pp : JsonVal)
    (o : FetchOutcome) (st : ClientState) (hlen : h.length ≤ 50)
    (hst : st.requestHistory.length ≤ 50) :
    (addToHistory ts m req resp s h).length ≤ 50 ∧
    (h.length = 50 →
      addToHistory ts m req resp s h
        = h.drop 1 ++ [⟨ts, m, req, resp, s⟩]) ∧
    (h.length < 50 →
      addToHistory ts m req resp s h = h ++ [⟨ts, m, req, resp, s⟩]) ∧
    ((callRPC env mm pp o st).1.requestHistory.length ≤ 50) ∧
    (clearHistory st).requestHistory = [] := by
  refine ⟨addToHistory_le ts m req resp s h hlen, fun h50 => ?_,
    fun hlt => ?_, callRPC_history_le env mm pp o st hst, rfl⟩
  · unfold addToHistory
    rw [if_pos (by simp [h50])]
    exact List.drop_append_of_le_length (by omega)
  · unfold addToHistory
    rw [if_neg (by simp; omega)]

/-- C10, witness: a history of exactly 50 entries stays at 50, losing
its front entry; a 49-entry history grows to 50; a shorter one simply
appends; `clearHistory` leaves an empty history. -/
theorem history_bounded_witness :
    ((addToHistory "t" "m" .jnull .jnull true
        (List.replicate 50 ⟨"s", "n", .jnull, .jnull, false⟩)).length ≤ 50) ∧
    (addToHistory "t" "m" .jnull .jnull true
        (List.replicate 50 ⟨"s", "n", .jnull, .jnull, false⟩)
      = (List.replicate 50
          (⟨"s", "n", .jnull, .jnull, false⟩ : HistoryEntry)).drop 1
        ++ [⟨"t", "m", .jnull, .jnull, true⟩]) ∧
    (addToHistory "t" "m" .jnull .jnull true []
      = [⟨"t", "m", .jnull, .jnull, true⟩]) ∧
    (clearHistory ⟨false, [⟨"s", "n", .jnull, .jnull, false⟩], 1, 2, 3⟩
        ).requestHistory = [] :=
  have hb := history_bounded "t" "m" .jnull .jnull true
    (List.replicate 50 ⟨"s", "n", .jnull, .jnull, false⟩) ⟨0, "t"⟩
    "getCurrentTime" (.mkObj []) (.fetchThrows ⟨"Error", "x"⟩)
    ⟨false, [⟨"s", "n", .jnull, .jnull, false⟩], 1, 2, 3⟩
    (by simp) (by simp)
  have hc := history_bounded "t" "m" .jnull .jnull true [] ⟨0, "t"⟩
    "getCurrentTime" (.mkObj []) (.fetchThrows ⟨"Error", "x"⟩)
    ⟨false, [⟨"s", "n", .jnull, .jnull, false⟩], 1, 2, 3⟩
    (by simp) (by simp)
  ⟨hb.1, hb.2.1 (by simp), hc.2.2.1 (by simp), hb.2.2.2.2⟩

end JsonRpc
